import Mathlib

/-!
Verification of the CI pipeline generator `generate-actions.py` of the
musl-toolchain repository.

The development shallowly embeds the generator: the two platform enumerations
with their three naming conventions, the artifact/toolchain naming functions,
the template emitters with their deferred `$(sha256sum ...)` checksum
descriptors, and the job-graph construction routine `make_jobs` that expands
the fixed source-platform x target-architecture matrix into an ordered mapping
from job identity to job specification, for both the pre-merge pipeline
(`release = false`) and the release pipeline (`release = true`).

Python dictionaries are embedded as insertion-ordered association lists (with
assignment semantics that overwrite in place when a key is already present),
YAML-ish step values as a small `Yaml` inductive, f-strings as explicit string
concatenation, and the enums as closed inductive types.  Literal braces and
apostrophes inside embedded shell text are written with `\x7b`, `\x7d` and
`\x27` escapes.
-/

set_option maxRecDepth 2500

namespace MuslToolchain

/-- Embeds `class Architecture(Enum)` with members `ARM64` and `X86_64`. -/
inductive Architecture where
  | ARM64
  | X86_64
deriving DecidableEq, BEq, Fintype, Repr

/-- Embeds `class OS(Enum)` with members `Linux` and `MacOS`. -/
inductive OS where
  | Linux
  | MacOS
deriving DecidableEq, BEq, Fintype, Repr

/-- Embeds the `Architecture.for_musl` property: the musl target-triple
component of the architecture. -/
def Architecture.for_musl : Architecture → String
  | Architecture.ARM64 => "aarch64"
  | Architecture.X86_64 => "x86_64"

/-- Embeds the `Architecture.for_bazel_platform` property: the Bazel platform
constraint identifier of the architecture. -/
def Architecture.for_bazel_platform : Architecture → String
  | Architecture.ARM64 => "arm64"
  | Architecture.X86_64 => "x86_64"

/-- Embeds the `Architecture.for_bazel_download` property.  Unlike the other
two derivations this one is written in the source with an explicit catch-all
`case _: raise ValueError(...)` branch, so it is embedded as a fallible
function: the wired members return `Except.ok` and the fall-through branch is
the `Except.error` result.  The source checks `X86_64` first, then `ARM64`,
then falls through to the error. -/
def Architecture.for_bazel_download (a : Architecture) : Except String String :=
  if a = Architecture.X86_64 then Except.ok "amd64"
  else if a = Architecture.ARM64 then Except.ok "arm64"
  else Except.error "Didn't know bazel download arch"

/-- Embeds the `OS.for_musl` property. -/
def OS.for_musl : OS → String
  | OS.Linux => "unknown-linux-gnu"
  | OS.MacOS => "apple-darwin"

/-- Embeds the `OS.for_bazel_platform` property. -/
def OS.for_bazel_platform : OS → String
  | OS.Linux => "linux"
  | OS.MacOS => "osx"

/-- Embeds the `OS.for_bazel_download` property (no catch-all branch in the
source: it is total over the enum). -/
def OS.for_bazel_download : OS → String
  | OS.Linux => "linux"
  | OS.MacOS => "darwin"

/-- YAML-ish values appearing in the generated workflow documents: strings,
booleans, sequences and (insertion-ordered) mappings. -/
inductive Yaml where
  | str : String → Yaml
  | bool : Bool → Yaml
  | arr : List Yaml → Yaml
  | map : List (String × Yaml) → Yaml

/-- Insertion-ordered association lists embed Python dictionaries whose values
are YAML values. -/
abbrev StrMap := List (String × Yaml)

/-- Embeds Python dictionary assignment `d[k] = v`: if the key is present its
value is overwritten in place, otherwise the pair is appended at the end
(insertion order is preserved, as for Python dicts). -/
def assocInsert {α β : Type} [BEq α] (d : List (α × β)) (k : α) (v : β) :
    List (α × β) :=
  if d.any (fun p => p.1 == k) then d.map (fun p => if p.1 == k then (k, v) else p)
  else d ++ [(k, v)]

/-- Embeds Python dictionary lookup `d[k]` (first, and in our uses only,
binding of the key). -/
def assocFind {α β : Type} [BEq α] : List (α × β) → α → Option β
  | [], _ => none
  | (k2, v) :: rest, k => if k2 == k then some v else assocFind rest k

/-- Embeds `collections.defaultdict` lookup: a missing key yields the default
(for `defaultdict(dict)`, the empty dictionary). -/
def assocGetD {α β : Type} [BEq α] (d : List (α × β)) (k : α) (dflt : β) : β :=
  match assocFind d k with
  | some v => v
  | none => dflt

/-- Embeds Python dictionary merge `a | b`: keys of `a` in order (values
overridden by `b` where both have the key), then the new keys of `b` in
order. -/
def dictMerge (a b : StrMap) : StrMap :=
  b.foldl (fun d p => assocInsert d p.1 p.2) a

/-- Embeds Python `sep.join(parts)`. -/
def pyJoin (sep : String) : List String → String
  | [] => ""
  | [x] => x
  | x :: xs => x ++ sep ++ pyJoin sep xs

/-- Embeds Python `s.replace(".", "_")` (a single-character pattern, so the
replacement is a character map). -/
def pyReplaceDots (s : String) : String :=
  String.mk (s.data.map (fun c => if c = '.' then '_' else c))

/-- Embeds Python `s.removesuffix(suf)`. -/
def pyRemoveSuffix (s suf : String) : String :=
  if suf.data.isSuffixOf s.data then String.mk (s.data.take (s.data.length - suf.data.length))
  else s

/-- Embeds Python `textwrap.indent(text, pre)`: the prefix is added to every
line that contains non-whitespace. -/
def textwrapIndent (text pre : String) : String :=
  pyJoin "\n" ((text.splitOn "\n").map (fun line => if line.trim == "" then line else pre ++ line))

/-- Embeds the module-level `checkout` step constant. -/
def checkout : Yaml :=
  Yaml.map [("name", Yaml.str "Checkout repo"), ("uses", Yaml.str "actions/checkout@v4")]

/-- Embeds the module-level `check_generated_files` step constant. -/
def check_generated_files : Yaml :=
  Yaml.map [("name", Yaml.str "Check generated files are up to date"),
            ("run", Yaml.str "python3 generate-actions.py && git diff --exit-code")]

/-- Embeds the module-level `platforms_version` constant. -/
def platforms_version : String := "0.0.9"

/-- Embeds `@dataclass class BaseRunner`. -/
structure BaseRunner where
  top_level_properties : StrMap
  build_setup_steps : List Yaml
  test_setup_steps : List Yaml

/-- Embeds `install_bazel(os, arch)`; both OS branches of the source return
the same step dictionary (the `arch` parameter is unused in the source,
too). -/
def install_bazel (os : OS) (arch : Architecture) : Yaml :=
  match os with
  | OS.Linux =>
      Yaml.map [("name", Yaml.str "Skipping downloading bazelisk - already installed"),
                ("run", Yaml.str "bazel --version")]
  | OS.MacOS =>
      Yaml.map [("name", Yaml.str "Skipping downloading bazelisk - already installed"),
                ("run", Yaml.str "bazel --version")]

/-- Embeds the `linux_x86_64_runner` constant. -/
def linux_x86_64_runner : BaseRunner where
  top_level_properties := [("runs-on", Yaml.str "ubuntu-24.04")]
  build_setup_steps :=
    [Yaml.map [("name", Yaml.str "Install musl"),
               ("run", Yaml.str "sudo apt-get update && sudo apt-get install -y musl-dev musl-tools")],
     Yaml.map [("run", Yaml.str "sudo ln -s /usr/bin/tar /usr/bin/gnutar")]]
  test_setup_steps := []

/-- Embeds the `linux_aarch64_runner` constant. -/
def linux_aarch64_runner : BaseRunner where
  top_level_properties := [("runs-on", Yaml.str "ubuntu-24.04-arm")]
  build_setup_steps :=
    [Yaml.map [("name", Yaml.str "Install musl"),
               ("run", Yaml.str "sudo apt-get update && sudo apt-get install -y musl-dev musl-tools")],
     Yaml.map [("run", Yaml.str "sudo ln -s /usr/bin/tar /usr/bin/gnutar")]]
  test_setup_steps := []

/-- Embeds the `_setup_darwin_steps` constant. -/
def setup_darwin_steps : List Yaml :=
  [Yaml.map [("run", Yaml.str "brew install wget md5sha1sum gnu-tar")]]

/-- Embeds the `darwin_x86_64_runner` constant. -/
def darwin_x86_64_runner : BaseRunner where
  top_level_properties := [("runs-on", Yaml.str "macos-13")]
  build_setup_steps := setup_darwin_steps
  test_setup_steps := []

/-- Embeds the `darwin_aarch64_runner` constant. -/
def darwin_aarch64_runner : BaseRunner where
  top_level_properties := [("runs-on", Yaml.str "macos-15")]
  build_setup_steps := setup_darwin_steps
  test_setup_steps := []

/-- Embeds `upload(name, path)`. -/
def upload (name path : String) : Yaml :=
  Yaml.map [("name", Yaml.str ("Upload " ++ name)),
            ("uses", Yaml.str "actions/upload-artifact@v4"),
            ("with", Yaml.map [("name", Yaml.str name),
                               ("path", Yaml.str path),
                               ("if-no-files-found", Yaml.str "error")])]

/-- Embeds `download(name)`. -/
def download (name : String) : Yaml :=
  Yaml.map [("name", Yaml.str ("Download " ++ name)),
            ("uses", Yaml.str "actions/download-artifact@v4"),
            ("with", Yaml.map [("name", Yaml.str name),
                               ("path", Yaml.str ".")])]

/-- Embeds `get_platform_sha256sum(os)`: the OS-dependent hashing command. -/
def get_platform_sha256sum : OS → String
  | OS.Linux => "sha256sum"
  | OS.MacOS => "shasum -a 256"

/-- Embeds `musl_filename_without_extension(source_os, source_arch,
target_arch)`. -/
def musl_filename_without_extension (source_os : OS) (source_arch target_arch : Architecture) :
    String :=
  "musl-1.2.3-platform-" ++ source_arch.for_musl ++ "-" ++ source_os.for_musl ++
    "-target-" ++ target_arch.for_musl ++ "-linux-musl"

/-- Embeds `musl_toolchain_target_name(source_os, source_arch, target_arch)`. -/
def musl_toolchain_target_name (source_os : OS) (source_arch target_arch : Architecture) :
    String :=
  pyReplaceDots (musl_filename_without_extension source_os source_arch target_arch)

/-- Embeds `generate_toolchain(repo_name, source_arch, source_os, target_arch,
wrap_in_triple_quotes, extra_exec_compatible_expr, extra_target_compatible_expr,
target_settings_expr)`.  The source starts with a guard raising `RuntimeError`
when `wrap_in_triple_quotes` is false and one of the extra expressions is
non-empty; every call site of the source passes arguments satisfying the
guard, and no claim concerns it, so the guard is not embedded.  Python's
truthiness test `if extra_...:` on a string is embedded as a comparison with
the empty string. -/
def generate_toolchain (repo_name : String) (source_arch : Architecture) (source_os : OS)
    (target_arch : Architecture) (wrap_in_triple_quotes : Bool)
    (extra_exec_compatible_expr extra_target_compatible_expr target_settings_expr : String) :
    String :=
  (if wrap_in_triple_quotes then "\"\"\"" else "")
  ++ "toolchain(\n    name = \"" ++ repo_name ++
    "\",\n    exec_compatible_with = [\n        \"@platforms//cpu:" ++
    source_arch.for_bazel_platform ++ "\",\n        \"@platforms//os:" ++
    source_os.for_bazel_platform ++ "\",\n    ]"
  ++ (if extra_exec_compatible_expr == "" then ""
      else " + \"\"\" + repr(" ++ extra_exec_compatible_expr ++ ") + \"\"\"")
  ++ ",\n    target_compatible_with = [\n        \"@platforms//cpu:" ++
    target_arch.for_bazel_platform ++ "\",\n        \"@platforms//os:linux\",\n    ]"
  ++ (if extra_target_compatible_expr == "" then ""
      else " + \"\"\" + repr(" ++ extra_target_compatible_expr ++ ") + \"\"\"")
  ++ (if target_settings_expr == "" then ""
      else ",\n    target_settings = " ++ "\"\"\" + repr(" ++ target_settings_expr ++ ") + \"\"\"")
  ++ ",\n    toolchain = \"@" ++ repo_name ++
    "\",\n    toolchain_type = \"@bazel_tools//tools/cpp:toolchain_type\",\n)\n"
  ++ (if wrap_in_triple_quotes then "\"\"\"" else "")

/-- Embeds `generate_test_toolchain(repo_name, target_arch,
wrap_in_triple_quotes, extra_target_compatible_expr, target_settings_expr)`.
As for `generate_toolchain`, the initial `RuntimeError` guard of the source is
satisfied at every call site and is not embedded. -/
def generate_test_toolchain (repo_name : String) (target_arch : Architecture)
    (wrap_in_triple_quotes : Bool)
    (extra_target_compatible_expr target_settings_expr : String) : String :=
  (if wrap_in_triple_quotes then "\"\"\"" else "")
  ++ "toolchain(\n    name = \"" ++ repo_name ++
    "_test_toolchain\",\n    exec_compatible_with = [\n        \"@platforms//cpu:" ++
    target_arch.for_bazel_platform ++ "\",\n        \"@platforms//os:linux\",\n    ]"
  ++ ",\n    target_compatible_with = [\n        \"@platforms//cpu:" ++
    target_arch.for_bazel_platform ++ "\",\n        \"@platforms//os:linux\",\n    ]"
  ++ (if extra_target_compatible_expr == "" then ""
      else " + \"\"\" + repr(" ++ extra_target_compatible_expr ++ ") + \"\"\"")
  ++ (if target_settings_expr == "" then ""
      else ",\n    target_settings = " ++ "\"\"\" + repr(" ++ target_settings_expr ++ ") + \"\"\"")
  ++ ",\n    toolchain = \"@" ++ repo_name ++ "//:" ++ repo_name ++
    "_test_toolchain\",\n    toolchain_type = \"@bazel_tools//tools/cpp:test_runner_toolchain_type\",\n)\n"
  ++ (if wrap_in_triple_quotes then "\"\"\"" else "")

/-- Embeds the local `content` of
`generate_builder_workspace_config_build_file(source_os, source_arch,
target_arch)`: toolchain declaration, test-toolchain declaration and the
`platform(...)` block. -/
def builder_workspace_config_content (source_os : OS) (source_arch target_arch : Architecture) :
    String :=
  generate_toolchain (pyReplaceDots (musl_toolchain_target_name source_os source_arch target_arch))
      source_arch source_os target_arch false "" "" ""
  ++ generate_test_toolchain
      (pyReplaceDots (musl_toolchain_target_name source_os source_arch target_arch))
      target_arch false "" ""
  ++ "\nplatform(\n    name = \"platform\",\n    constraint_values = [\n        \"@platforms//cpu:" ++
    target_arch.for_bazel_platform ++ "\",\n        \"@platforms//os:linux\",\n    ],\n)\n"

/-- Embeds the step dictionary returned by
`generate_builder_workspace_config_build_file`. -/
def generate_builder_workspace_config_build_file (source_os : OS)
    (source_arch target_arch : Architecture) : Yaml :=
  Yaml.map [("name", Yaml.str "Generate builder workspace config BUILD.bazel file"),
            ("run", Yaml.str
              ("mkdir -p test-workspaces/builder/config && cat >test-workspaces/builder/config/BUILD.bazel <<EOF\n"
                ++ builder_workspace_config_content source_os source_arch target_arch
                ++ "\nEOF\n"))]

/-- Embeds the local `content` of `generate_builder_workspace_file(source_os,
source_arch, target_arch)`: an `http_archive` whose `sha256` field is the
deferred shell command substitution over the locally staged archive. -/
def builder_workspace_content (source_os : OS) (source_arch target_arch : Architecture) :
    String :=
  "load(\"@bazel_tools//tools/build_defs/repo:http.bzl\", \"http_archive\")\n\nhttp_archive(\n    name = \"" ++
    musl_toolchain_target_name source_os source_arch target_arch ++
    "\",\n    sha256 = \"$(" ++ get_platform_sha256sum source_os ++ " " ++
    (musl_filename_without_extension source_os source_arch target_arch ++ ".tar.gz") ++
    " | awk \x27\x7bprint $1\x7d\x27)\",\n    url = \"file://$(pwd)/" ++
    (musl_filename_without_extension source_os source_arch target_arch ++ ".tar.gz") ++
    "\",\n)\n"

/-- Embeds the step dictionary returned by `generate_builder_workspace_file`. -/
def generate_builder_workspace_file (source_os : OS) (source_arch target_arch : Architecture) :
    Yaml :=
  Yaml.map [("name", Yaml.str "Generate builder workspace file"),
            ("run", Yaml.str
              ("cat >test-workspaces/builder/WORKSPACE.bazel <<EOF\n"
                ++ builder_workspace_content source_os source_arch target_arch
                ++ "\nEOF\n"))]

/-- Record for the entries of the `test_build_jobs` dictionary built by
`make_jobs`: the source stores `{"job_name": ..., "output": ...}`. -/
structure TBInfo where
  job_name : String
  output : String

/-- Embeds the local `content` of `generate_tester_workspace_file(test_jobs)`:
one `http_file` per test-build entry, each with a deferred `sha256`
command-substitution descriptor. -/
def tester_workspace_content (test_jobs : List ((OS × Architecture) × TBInfo)) : String :=
  test_jobs.foldl
    (fun content p =>
      content ++ "\nhttp_file(\n    name = \"built_binary_" ++ p.1.2.for_musl ++ "-" ++
        p.1.1.for_musl ++ "\",\n    executable = True,\n    sha256 = \"$(sha256sum " ++
        p.2.output ++ " | awk \x27\x7bprint $1\x7d\x27)\",\n    url = \"file://$(pwd)/" ++
        p.2.output ++ "\",\n)\n")
    "load(\"@bazel_tools//tools/build_defs/repo:http.bzl\", \"http_file\")\n"

/-- Embeds the step dictionary returned by `generate_tester_workspace_file`. -/
def generate_tester_workspace_file (test_jobs : List ((OS × Architecture) × TBInfo)) : Yaml :=
  Yaml.map [("name", Yaml.str "Generate tester workspace file"),
            ("run", Yaml.str
              ("cat >test-workspaces/tester/WORKSPACE.bazel <<EOF\n"
                ++ tester_workspace_content test_jobs
                ++ "\nEOF\n"))]

/-- Embeds `@dataclass class ReleasableArtifact`. -/
structure ReleasableArtifact where
  build_job_name : String
  source_os : OS
  source_arch : Architecture
  target_os : OS
  target_arch : Architecture
  musl_filename : String

/-- Embeds the `ReleasableArtifact.repo_name` property. -/
def ReleasableArtifact.repo_name (a : ReleasableArtifact) : String :=
  pyReplaceDots (pyRemoveSuffix a.musl_filename ".tar.gz")

/-- Embeds `download_url_for(filename, version)`. -/
def download_url_for (filename version : String) : String :=
  "https://github.com/bazel-contrib/musl-toolchain/releases/download/" ++ version ++ "/" ++
    filename

/-- Embeds the `http_archive(name, sha256, url)` text helper. -/
def http_archive (name sha256 url : String) : String :=
  "http_archive(\n    name = \"" ++ name ++ "\",\n    sha256 = \"" ++ sha256 ++
    "\",\n    url = \"" ++ url ++ "\",\n)\n"

/-- Embeds the local `toolchain_build_contents` of `generate_release_archive`:
the `" + ".join` of all wrapped toolchain declarations followed by all wrapped
test-toolchain declarations. -/
def release_toolchain_build_contents (toolchain_infos : List ReleasableArtifact) : String :=
  pyJoin " + "
    ((toolchain_infos.map (fun a =>
        generate_toolchain a.repo_name a.source_arch a.source_os a.target_arch true
          "rctx.attr.extra_exec_compatible_with" "rctx.attr.extra_target_compatible_with"
          "rctx.attr.target_settings"))
      ++ (toolchain_infos.map (fun a =>
        generate_test_toolchain a.repo_name a.target_arch true
          "rctx.attr.extra_target_compatible_with" "rctx.attr.target_settings")))

/-- Embeds the local `http_archives` of `generate_release_archive`: the
`"\n".join` of one `http_archive` block per artifact, each with a deferred
`sha256` command-substitution descriptor and a versioned download URL. -/
def release_http_archives (toolchain_infos : List ReleasableArtifact) (version : String) :
    String :=
  pyJoin "\n" (toolchain_infos.map (fun a =>
    http_archive a.repo_name
      ("$(sha256sum " ++ a.musl_filename ++ " | awk \x27\x7bprint $1\x7d\x27)")
      (download_url_for a.musl_filename version)))

/-- Embeds `generate_release_archive(toolchain_infos, output_path, version)`:
the list of steps that write the release archive's build-system integration
files, bundle them, and run the BCR tests. -/
def generate_release_archive (toolchain_infos : List ReleasableArtifact)
    (output_path version : String) : List Yaml :=
  [Yaml.map [("name", Yaml.str "Generate MODULE.bazel"),
     ("run", Yaml.str
       ("touch MODULE.bazel\n\nversion=\"" ++ version ++ "\"\n\ncat >MODULE.bazel <<EOF\nmodule(\n    name = \"toolchains_musl\",\n    version = \"$\x7bversion#v\x7d\",\n)\n\nbazel_dep(name = \"bazel_features\", version = \"1.9.0\")\nbazel_dep(name = \"platforms\", version = \"" ++ platforms_version ++ "\")\n\ntoolchains_musl = use_extension(\"//:toolchains_musl.bzl\", \"toolchains_musl\")\nuse_repo(toolchains_musl, \"musl_toolchains_hub\")\n\nregister_toolchains(\"@musl_toolchains_hub//:all\")\nEOF\n"))],
   Yaml.map [("name", Yaml.str "Generate WORKSPACE"),
     ("run", Yaml.str "touch WORKSPACE\n")],
   Yaml.map [("name", Yaml.str "Generate extensions.bzl"),
     ("run", Yaml.str
       ("touch toolchains_musl.bzl\n\ncat >toolchains_musl.bzl <<\x27EOF\x27\nload(\"@bazel_features//:features.bzl\", \"bazel_features\")\nload(\":repositories.bzl\", \"load_musl_toolchains\")\n\ndef _toolchains_musl(module_ctx):\n    extra_exec_compatible_with = []\n    extra_target_compatible_with = []\n    target_settings = []\n    for module in module_ctx.modules:\n        if not module.tags.config:\n            continue\n        if not module.is_root:\n            fail(\"musl_toolchains.config can only be used from the root module. Add \x27dev_dependency = True\x27 to \x27use_extension\x27 to ignore it in non-root modules.\")\n        if len(module.tags.config) > 1:\n            fail(\n                \"Only one musl_toolchains.config tag is allowed, got\",\n                module.tags.config[0],\n                \"and\",\n                module.tags.config[1],\n            )\n        config = module.tags.config[0]\n        extra_exec_compatible_with = config.extra_exec_compatible_with\n        extra_target_compatible_with = config.extra_target_compatible_with\n        target_settings = config.target_settings\n\n    load_musl_toolchains(\n        extra_exec_compatible_with = [str(label) for label in extra_exec_compatible_with],\n        extra_target_compatible_with = [str(label) for label in extra_target_compatible_with],\n        target_settings = [str(label) for label in target_settings],\n    )\n\n    if bazel_features.external_deps.extension_metadata_has_reproducible:\n        return module_ctx.extension_metadata(reproducible = True)\n    else:\n        return None\n\n_config = tag_class(\n    attrs = \x7b\n        \"extra_exec_compatible_with\": attr.label_list(),\n        \"extra_target_compatible_with\": attr.label_list(),\n        \"target_settings\": attr.label_list(),\n    \x7d,\n)\n\ntoolchains_musl = module_extension(\n    implementation = _toolchains_musl,\n    tag_classes = \x7b\n        \"config\": _config,\n    \x7d,\n)\nEOF\n"))],
   Yaml.map [("name", Yaml.str "Generate BUILD.bazel"),
     ("run", Yaml.str "touch BUILD.bazel")],
   Yaml.map [("name", Yaml.str "Generate toolchains.bzl"),
     ("run", Yaml.str
       ("cat >toolchains.bzl <<EOF\ndef register_musl_toolchains():\n    native.register_toolchains(\"@musl_toolchains_hub//:all\")\nEOF\n"))],
   Yaml.map [("name", Yaml.str "Generate repositories.bzl"),
     ("run", Yaml.str
       ("cat >repositories.bzl <<EOF\nload(\"@bazel_tools//tools/build_defs/repo:http.bzl\", \"http_archive\")\n\ndef _toolchain_repo(rctx):\n    rctx.file(\n        \"BUILD.bazel\",\n        " ++ release_toolchain_build_contents toolchain_infos ++ ",\n    )\n\ntoolchain_repo = repository_rule(\n    implementation = _toolchain_repo,\n    attrs = \x7b\n        \"extra_exec_compatible_with\": attr.string_list(),\n        \"extra_target_compatible_with\": attr.string_list(),\n        \"target_settings\": attr.string_list(),\n    \x7d,\n)\n\ndef load_musl_toolchains(extra_exec_compatible_with=[], extra_target_compatible_with=[], target_settings=[]):\n" ++ textwrapIndent (release_http_archives toolchain_infos version) "    " ++ "\n\n    toolchain_repo(\n        name = \"musl_toolchains_hub\",\n        extra_exec_compatible_with = extra_exec_compatible_with,\n        extra_target_compatible_with = extra_target_compatible_with,\n        target_settings = target_settings,\n    )\nEOF\n"))],
   Yaml.map [("name", Yaml.str "Generate bcr_test/.bazelrc"),
     ("run", Yaml.str
       ("mkdir -p bcr_test\n\ncat >bcr_test/.bazelrc <<\x27EOF\x27\ncommon --//:toolchain_flavor=musl\ncommon --repo_env=BAZEL_DO_NOT_DETECT_CPP_TOOLCHAIN=1\n\n# Simulate extra execution platforms that could run the transitioned cc_test\n# binaries to verify that the test toolchain works correctly.\ncommon --extra_execution_platforms=@platforms//host,//:linux_x86_64,//:linux_aarch64\n\ncommon --test_output=errors\ncommon --verbose_failures\nEOF\n"))],
   Yaml.map [("name", Yaml.str "Generate bcr_test/MODULE.bazel"),
     ("run", Yaml.str
       ("mkdir -p bcr_test\ntouch bcr_test/MODULE.bazel\n\ncat >bcr_test/MODULE.bazel <<\x27EOF\x27\nbazel_dep(name = \"toolchains_musl\")\nlocal_path_override(\n    module_name = \"toolchains_musl\",\n    path = \"..\",\n)\n\nbazel_dep(name = \"aspect_bazel_lib\", version = \"2.20.0\")\nbazel_dep(name = \"bazel_skylib\", version = \"1.7.1\")\nbazel_dep(name = \"platforms\", version = \"" ++ platforms_version ++ "\")\nbazel_dep(name = \"rules_cc\", version = \"0.1.3\")\nbazel_dep(name = \"rules_shell\", version = \"0.5.0\")\n\ntoolchains_musl = use_extension(\"@toolchains_musl//:toolchains_musl.bzl\", \"toolchains_musl\", dev_dependency = True)\ntoolchains_musl.config(\n    extra_target_compatible_with = [\"//:musl_on\"],\n    target_settings = [\"//:musl_flavor\"],\n)\n\nEOF\n"))],
   Yaml.map [("name", Yaml.str "Generate bcr_test/BUILD.bazel"),
     ("run", Yaml.str
       ("mkdir -p bcr_test\ntouch bcr_test/BUILD.bazel\n\ncat >bcr_test/BUILD.bazel <<\x27EOF2\x27\nload(\"@aspect_bazel_lib//lib:transitions.bzl\", \"platform_transition_binary\")\nload(\"@bazel_skylib//rules:common_settings.bzl\", \"string_flag\")\nload(\"@platforms//host:constraints.bzl\", \"HOST_CONSTRAINTS\")\nload(\"@rules_cc//cc:cc_binary.bzl\", \"cc_binary\")\nload(\"@rules_cc//cc:cc_library.bzl\", \"cc_library\")\nload(\"@rules_cc//cc:cc_shared_library.bzl\", \"cc_shared_library\")\nload(\"@rules_cc//cc:cc_test.bzl\", \"cc_test\")\nload(\"@rules_shell//shell:sh_test.bzl\", \"sh_test\")\n\npackage(default_visibility = [\"//visibility:public\"])\n\ngenrule(\n    name = \"generate_lib_header\",\n    outs = [\"lib.h\"],\n    cmd = \"\"\"cat >$@ <<\x27EOF\x27\n#ifndef LIB_H\n#define LIB_H\n\nconst char* get_build_info();\n\n#endif // LIB_H\nEOF\n\"\"\",\n)\n\ngenrule(\n    name = \"generate_lib_source\",\n    outs = [\"lib.cc\"],\n    cmd = \"\"\"cat >$@ <<EOF\n#include \"lib.h\"\n\n#include <cstdio>\n\nstatic const char* os = \"$$(uname)\";\nstatic const char* arch = \"$$(uname -m)\";\n\nconst char* get_build_info() \x7b\n  static char info[256];\n  snprintf(info, sizeof(info), \"Built for %s on %s\", os, arch);\n  return info;\n\x7d\nEOF\n\"\"\",\n)\n\ncc_library(\n    name = \"lib\",\n    srcs = [\"lib.cc\"],\n    hdrs = [\"lib.h\"],\n    tags = [\"manual\"],\n)\n\ngenrule(\n    name = \"generate_main_source\",\n    outs = [\"main.cc\"],\n    cmd = \"\"\"cat >$@ <<\x27EOF\x27\n#include <stdio.h>\n#include \"lib.h\"\n\nint main(void) \x7b\n  printf(\"%s\\\\n\", get_build_info());\n  return 0;\n\x7d\nEOF\n\"\"\",\n)\n\ncc_binary(\n    name = \"binary\",\n    srcs = [\"main.cc\"],\n    tags = [\"manual\"],\n    deps = [\":lib\"],\n)\n\ncc_test(\n    name = \"test\",\n    srcs = [\"main.cc\"],\n    tags = [\"manual\"],\n    deps = [\":lib\"],\n)\n\ncc_shared_library(\n    name = \"shared_lib\",\n    tags = [\"manual\"],\n    deps = [\":lib\"],\n)\n\ncc_binary(\n    name = \"shared_binary\",\n    srcs = [\"main.cc\"],\n    dynamic_deps = [\":shared_lib\"],\n    tags = [\"manual\"],\n    deps = [\":lib\"],\n)\n\n[\n    platform_transition_binary(\n        name = \"\x7b\x7d_\x7b\x7d\".format(name, target_platform),\n        testonly = True,\n        binary = \":\x7b\x7d\".format(name),\n        target_platform = \":\x7b\x7d\".format(target_platform),\n    )\n    for name in [\n        \"binary\",\n        \"shared_binary\",\n        \"test\",\n    ]\n    for target_platform in [\n        \"linux_x86_64\",\n        \"linux_aarch64\",\n    ]\n]\n\nHOST_PLATFORM = \"\x7b\x7d_\x7b\x7d\".format(\n    \"linux\" if \"@platforms//os:linux\" in HOST_CONSTRAINTS else \"darwin\",\n    \"x86_64\" if \"@platforms//cpu:x86_64\" in HOST_CONSTRAINTS else \"aarch64\",\n)\n\n[\n    sh_test(\n        name = \"\x7b\x7d_\x7b\x7d_test\".format(name, target_platform),\n        srcs = [\"binary_test.sh\"],\n        args = [\n            \x7b\n                \"binary\": \"\x27statically linked\x27\",\n                \"shared_binary\": \"\x27dynamically linked\x27\",\n                \"test\": \"\x27POSIX shell script\x27\",\n            \x7d.get(name),\n        ] + [\n            \"x86-64\" if target_platform == \"linux_x86_64\" else \"aarch64\",\n        ] if name != \"test\" else [],\n        data = [\":\x7b\x7d_\x7b\x7d\".format(name, target_platform)],\n        env = \x7b\n            \"BINARY\": \"$(rootpath :\x7b\x7d_\x7b\x7d)\".format(name, target_platform),\n            # Don\x27t attempt to run shared_binary as it does require the musl linker to be installed\n            # on the host system.\n            \"SHOULD_RUN\": \"1\" if name != \"shared_binary\" and target_platform == HOST_PLATFORM else \"\",\n        \x7d,\n    )\n    for name in [\n        \"binary\",\n        \"shared_binary\",\n        \"test\",\n    ]\n    for target_platform in [\n        \"linux_x86_64\",\n        \"linux_aarch64\",\n    ]\n]\n\nplatform(\n    name = \"linux_x86_64\",\n    constraint_values = [\n        \"@platforms//cpu:x86_64\",\n        \"@platforms//os:linux\",\n        \":musl_on\",\n    ],\n)\n\nplatform(\n    name = \"linux_aarch64\",\n    constraint_values = [\n        \"@platforms//cpu:aarch64\",\n        \"@platforms//os:linux\",\n        \":musl_on\",\n    ],\n)\n\nconstraint_setting(\n    name = \"musl\",\n    default_constraint_value = \":musl_off\",\n)\n\nconstraint_value(\n    name = \"musl_on\",\n    constraint_setting = \":musl\",\n)\n\nconstraint_value(\n    name = \"musl_off\",\n    constraint_setting = \":musl\",\n)\n\nstring_flag(\n    name = \"toolchain_flavor\",\n    build_setting_default = \"not_musl\",\n)\n\nconfig_setting(\n    name = \"musl_flavor\",\n    flag_values = \x7b\n        \":toolchain_flavor\": \"musl\",\n    \x7d,\n)\nEOF2\n"))],
   Yaml.map [("name", Yaml.str "Generate bcr_test/binary_test.sh"),
     ("run", Yaml.str
       ("mkdir -p bcr_test\ntouch bcr_test/binary_test.sh\nchmod +x bcr_test/binary_test.sh\n\ncat >bcr_test/binary_test.sh <<\x27EOF\x27\n#!/usr/bin/env bash\n\nset -euo pipefail\n\nfor arg in \"$@\"; do\n    file -L \"$BINARY\" | grep -q \"$arg\" || (echo \"Binary $BINARY does not have \x27$arg\x27 in its file info: $(file -L \"$BINARY\")\" && exit 1)\ndone\n\nif [[ -n \"$\x7bSHOULD_RUN:-\x7d\" ]]; then\n    if ! \"$BINARY\"; then\n        echo \"Binary $BINARY failed to run\"\n        exit 1\n    fi\nelse\n    echo \"Skipping execution of $BINARY as SHOULD_RUN is not set\"\nfi\n\necho \"All tests passed\"\n\nEOF\n"))],
   Yaml.map [("name", Yaml.str "Generate release archive"),
     ("run", Yaml.str
       ("./deterministic-tar.sh " ++ output_path ++ " WORKSPACE MODULE.bazel toolchains_musl.bzl toolchains.bzl repositories.bzl BUILD.bazel bcr_test/.bazelrc bcr_test/MODULE.bazel bcr_test/BUILD.bazel bcr_test/binary_test.sh"))],
   Yaml.map [("name", Yaml.str "Run BCR tests"),
     ("run", Yaml.str
       ("sed -i \"s|https://github.com/bazel-contrib/musl-toolchain/releases/download/" ++ version ++ "/|file://$(pwd)/|g\" repositories.bzl\ncd bcr_test\nbazel test ...\n"))]]

/-- Embeds `upload_release_archive_artifact(filename)`. -/
def upload_release_archive_artifact (filename : String) : Yaml :=
  Yaml.map [("name", Yaml.str "Upload release archive"),
            ("uses", Yaml.str "actions/upload-release-asset@v1"),
            ("env", Yaml.map [("GITHUB_TOKEN", Yaml.str "$\x7b\x7b secrets.GITHUB_TOKEN \x7d\x7d")]),
            ("with", Yaml.map
              [("upload_url", Yaml.str "$\x7b\x7b steps.create_release.outputs.upload_url \x7d\x7d"),
               ("asset_name", Yaml.str filename),
               ("asset_path", Yaml.str filename),
               ("asset_content_type", Yaml.str "application/gzip")])]

/-- Embeds the `run` string of the step returned by
`generate_release_body(release_body_path, release_archive_path, version)`:
it computes a deferred `sha256` command substitution over the locally staged
release archive and resolves the release-body template with `sed`. -/
def release_body_run (release_body_path release_archive_path version : String) : String :=
  "sha256=$(sha256sum " ++ release_archive_path ++
    " | awk \x27\x7bprint $1\x7d\x27) ; url=\x27" ++
    download_url_for release_archive_path version ++ "\x27 ; version=\x27" ++
    version ++
    "\x27; sed -e \"s#\x7bsha256\x7d#$\x7bsha256\x7d#g\" -e \"s#\x7burl\x7d#$\x7burl\x7d#g\" -e \"s|\x7bversion\x7d|$\x7bversion#v\x7d|g\" release.txt.template > " ++
    release_body_path

/-- Embeds `generate_release_body(release_body_path, release_archive_path,
version)`. -/
def generate_release_body (release_body_path release_archive_path version : String) : Yaml :=
  Yaml.map [("name", Yaml.str "Generate release body"),
            ("run", Yaml.str (release_body_run release_body_path release_archive_path version))]

/-- State threaded through the job-construction loops of `make_jobs`: the
`jobs` dictionary and the accumulators `releasable_artifacts`,
`test_build_jobs` (a `defaultdict(dict)`) and `test_jobs`. -/
structure BuildState where
  jobs : StrMap
  releasable_artifacts : List ReleasableArtifact
  test_build_jobs : List (Architecture × List ((OS × Architecture) × TBInfo))
  test_jobs : List String

/-- Embeds the `source_machines` list of `make_jobs`. -/
def source_machines : List (OS × Architecture × BaseRunner) :=
  [(OS.Linux, Architecture.X86_64, linux_x86_64_runner),
   (OS.Linux, Architecture.ARM64, linux_aarch64_runner),
   (OS.MacOS, Architecture.X86_64, darwin_x86_64_runner),
   (OS.MacOS, Architecture.ARM64, darwin_aarch64_runner)]

/-- Embeds the `target_os` local of `make_jobs`. -/
def target_os : OS := OS.Linux

/-- Embeds the `target_machines` list of `make_jobs`.  The runner component is
optional because the loop guards the aggregate test job with
`if not target_runner: continue`: a target architecture designated not
testable would carry no runner and would get no aggregate TestJob. The two
configured targets both carry a runner. -/
def target_machines : List (Architecture × Option BaseRunner) :=
  [(Architecture.X86_64, some linux_x86_64_runner),
   (Architecture.ARM64, some linux_aarch64_runner)]

/-- Embeds one iteration of the inner (source-machine) loop of `make_jobs`:
registers the BuildJob and the TestBuildJob for this (source platform, target
architecture) pair, and records the releasable artifact and the test-build
bookkeeping entry. -/
def processSource (target_arch : Architecture) (st : BuildState)
    (src : OS × Architecture × BaseRunner) : BuildState :=
  let source_os := src.1
  let source_arch := src.2.1
  let source_runner := src.2.2
  let build_job_name :=
    source_os.for_musl ++ "-" ++ source_arch.for_musl ++ "-" ++ target_arch.for_musl
  let musl_filename :=
    musl_filename_without_extension source_os source_arch target_arch ++ ".tar.gz"
  let jobs := assocInsert st.jobs build_job_name
    (Yaml.map (dictMerge source_runner.top_level_properties
      [("needs", Yaml.arr [Yaml.str "check-generated"]),
       ("steps", Yaml.arr (source_runner.build_setup_steps ++ [checkout] ++
         [Yaml.map [("name", Yaml.str "Build musl"),
                    ("run", Yaml.str ("./build.sh " ++ target_arch.for_musl))],
          upload musl_filename ("output/" ++ musl_filename)]))]))
  let releasable_artifacts := st.releasable_artifacts ++
    [{ build_job_name := build_job_name, source_os := source_os, source_arch := source_arch,
       target_os := target_os, target_arch := target_arch, musl_filename := musl_filename }]
  let test_build_job_name :=
    source_os.for_musl ++ "-" ++ source_arch.for_musl ++ "-" ++ target_arch.for_musl ++
      "-test-build"
  let test_build_filename :=
    "test-binary-platform-" ++ source_arch.for_musl ++ "-" ++ source_os.for_musl ++
      "-target-" ++ target_arch.for_musl ++ "-linux-musl"
  let jobs := assocInsert jobs test_build_job_name
    (Yaml.map (dictMerge source_runner.top_level_properties
      [("needs", Yaml.arr [Yaml.str build_job_name]),
       ("steps", Yaml.arr (source_runner.test_setup_steps ++
         [checkout, download musl_filename, install_bazel source_os source_arch,
          generate_builder_workspace_file source_os source_arch target_arch,
          generate_builder_workspace_config_build_file source_os source_arch target_arch] ++
         (if source_os == OS.Linux && source_arch == target_arch then
           [Yaml.map [("name", Yaml.str "Test with musl"),
                      ("run", Yaml.str "cd test-workspaces/builder && bazel test //:test")],
            Yaml.map [("name", Yaml.str "Test with musl (static linking)"),
                      ("run", Yaml.str "cd test-workspaces/builder && bazel test //:test --dynamic_mode=off")]]
          else []) ++
         [Yaml.map [("name", Yaml.str "Build with musl"),
                    ("run", Yaml.str "cd test-workspaces/builder && bazel build //:binary")],
          Yaml.map [("name", Yaml.str "Move test binary"),
                    ("run", Yaml.str ("mkdir output && cp test-workspaces/builder/bazel-bin/binary output/" ++ test_build_filename))],
          upload test_build_filename ("output/" ++ test_build_filename)]))]))
  let test_build_jobs := assocInsert st.test_build_jobs target_arch
    (assocInsert (assocGetD st.test_build_jobs target_arch []) (source_os, source_arch)
      { job_name := test_build_job_name, output := test_build_filename })
  { jobs := jobs, releasable_artifacts := releasable_artifacts,
    test_build_jobs := test_build_jobs, test_jobs := st.test_jobs }

/-- Embeds one iteration of the outer (target-architecture) loop of
`make_jobs`: runs the inner loop over all source machines, then, when a target
runner is available, registers the aggregate TestJob needing every
TestBuildJob of this target architecture. -/
def processTarget (st : BuildState) (t : Architecture × Option BaseRunner) : BuildState :=
  let target_arch := t.1
  let st2 := source_machines.foldl (processSource target_arch) st
  match t.2 with
  | none => st2
  | some target_runner =>
    let test_job_name := "test-" ++ target_arch.for_musl
    let test_jobs := st2.test_jobs ++ [test_job_name]
    let tbj := assocGetD st2.test_build_jobs target_arch []
    let jobs := assocInsert st2.jobs test_job_name
      (Yaml.map (dictMerge target_runner.top_level_properties
        [("needs", Yaml.arr (tbj.map (fun p => Yaml.str p.2.job_name))),
         ("steps", Yaml.arr (target_runner.test_setup_steps ++ [checkout] ++
           tbj.map (fun p => download p.2.output) ++
           [install_bazel target_os target_arch,
            generate_tester_workspace_file tbj,
            Yaml.map [("run", Yaml.str "cd test-workspaces/tester && CC=/bin/false bazel test ... --test_output=all")]]))]))
    { st2 with jobs := jobs, test_jobs := test_jobs }

/-- The initial `jobs` dictionary of `make_jobs`, holding only the
`check-generated` self-check job. -/
def initial_jobs : StrMap :=
  [("check-generated", Yaml.map
    [("runs-on", Yaml.str "ubuntu-24.04"),
     ("steps", Yaml.arr [checkout, check_generated_files])])]

/-- The loop state before the target-architecture loop of `make_jobs` runs. -/
def initialState : BuildState :=
  { jobs := initial_jobs, releasable_artifacts := [], test_build_jobs := [], test_jobs := [] }

/-- The loop state after the target-architecture loop of `make_jobs` has
processed every target machine.  The loop body mentions neither the `release`
flag nor the `version` argument, so it computes the same state for both
pipelines and is factored out of `make_jobs`. -/
def loopedState : BuildState := target_machines.foldl processTarget initialState

/-- Embeds `make_jobs(release, version)`: the ordered job-identity-to-job
mapping of the generated pipeline.  The release pipeline appends the
`release` job (needing every build job and every aggregate test job) and the
`publish` job (needing the release job). -/
def make_jobs (release : Bool) (version : String) : StrMap :=
  let st := loopedState
  if release then
    let release_body_path := "release-notes.txt"
    let release_archive_path := "musl_toolchain-" ++ version ++ ".tar.gz"
    let jobs := assocInsert st.jobs "release"
      (Yaml.map
        [("runs-on", Yaml.str "ubuntu-24.04"),
         ("needs", Yaml.arr ((st.releasable_artifacts.map (fun j => Yaml.str j.build_job_name)) ++
           st.test_jobs.map Yaml.str)),
         ("steps", Yaml.arr
           ([checkout, Yaml.map [("run", Yaml.str "sudo ln -s /usr/bin/tar /usr/bin/gnutar")]] ++
            st.releasable_artifacts.map (fun a => download a.musl_filename) ++
            generate_release_archive st.releasable_artifacts release_archive_path version ++
            [generate_release_body release_body_path release_archive_path version] ++
            [Yaml.map
               [("id", Yaml.str "create_release"),
                ("name", Yaml.str "Create release"),
                ("uses", Yaml.str "softprops/action-gh-release@v1"),
                ("env", Yaml.map [("GITHUB_TOKEN", Yaml.str "$\x7b\x7b secrets.GITHUB_TOKEN \x7d\x7d")]),
                ("with", Yaml.map
                  [("generate_release_notes", Yaml.bool true),
                   ("tag_name", Yaml.str version),
                   ("body_path", Yaml.str release_body_path),
                   ("target_commitish", Yaml.str "$\x7b\x7b github.base_ref \x7d\x7d")])],
             upload_release_archive_artifact release_archive_path] ++
            st.releasable_artifacts.map (fun a => upload_release_archive_artifact a.musl_filename)))])
    assocInsert jobs "publish"
      (Yaml.map
        [("needs", Yaml.arr [Yaml.str "release"]),
         ("uses", Yaml.str "./.github/workflows/publish.yaml"),
         ("with", Yaml.map [("tag_name", Yaml.str version)]),
         ("secrets", Yaml.map [("BCR_PUBLISH_TOKEN", Yaml.str "$\x7b\x7b secrets.BCR_PUBLISH_TOKEN \x7d\x7d")])])
  else st.jobs

/-!
### Definitions supporting the claims
-/

/-- The `needs` list of a job specification: the string entries of its
`needs` field (a job without the field, such as `check-generated`, has the
empty list). -/
def needsList (j : Yaml) : List String :=
  match j with
  | Yaml.map m =>
    match assocFind m "needs" with
    | some (Yaml.arr l) =>
        l.filterMap (fun y => match y with | Yaml.str s => some s | _ => none)
    | _ => []
  | _ => []

/-- Checks the emission-order invariant of a job mapping: walking the jobs in
order with `seen` holding the identities registered so far, every `needs`
entry of the next job must already be in `seen` (in particular a job can
never need itself or any later job). -/
def prefixClosed (seen : List String) : StrMap → Bool
  | [] => true
  | (name, j) :: rest =>
      (needsList j).all (fun n => seen.contains n) && prefixClosed (seen ++ [name]) rest

/-- The `name` fields of the steps of a job specification (`none` for steps
without a `name`, and `none` overall for a job without `steps`). -/
def stepNames (j : Yaml) : Option (List (Option String)) :=
  match j with
  | Yaml.map m =>
    match assocFind m "steps" with
    | some (Yaml.arr l) =>
        some (l.map (fun s =>
          match s with
          | Yaml.map sm =>
            match assocFind sm "name" with
            | some (Yaml.str n) => some n
            | _ => none
          | _ => none))
    | _ => none
  | _ => none

/-- Modelled from the spec: the deferred-checksum descriptor shape
`$(<hash-command> <artifact> | awk '\x7bprint $1\x7d')` of section 4.4, to be
compared with the checksum strings spliced into the emitted download
declarations by the source templates. -/
def deferred_sha256_descriptor (cmd artifact : String) : String :=
  "$(" ++ cmd ++ " " ++ artifact ++ " | awk \x27\x7bprint $1\x7d\x27)"

/-- The compiled-archive filename exactly as `make_jobs` computes its local
`musl_filename` (`musl_filename_without_extension(...) + ".tar.gz"`), exposed
as a function of the full (source OS, source architecture, target
architecture, version) tuple named by the spec's ArtifactNamer contract.  The
`version` argument, although in scope at that point of `make_jobs`, is not
used by the computation. -/
def archive_filename (source_os : OS) (source_arch target_arch : Architecture)
    (version : String) : String :=
  musl_filename_without_extension source_os source_arch target_arch ++ ".tar.gz"

/-- The test-binary filename exactly as `make_jobs` computes its local
`test_build_filename`, exposed as a function of the spec's full ArtifactNamer
input tuple; the `version` argument is again unused by the computation. -/
def test_binary_filename (source_os : OS) (source_arch target_arch : Architecture)
    (version : String) : String :=
  "test-binary-platform-" ++ source_arch.for_musl ++ "-" ++ source_os.for_musl ++
    "-target-" ++ target_arch.for_musl ++ "-linux-musl"

/-- The BuildJob identities of the pipeline: one per releasable artifact, in
emission order. -/
def build_job_names : List String :=
  loopedState.releasable_artifacts.map (fun a => a.build_job_name)

/-- The TestBuildJob identities of the pipeline, grouped by target
architecture in target order. -/
def test_build_job_names : List String :=
  (target_machines.map Prod.fst).flatMap
    (fun ta => (assocGetD loopedState.test_build_jobs ta []).map (fun p => p.2.job_name))

/-- The aggregate TestJob identities of the pipeline. -/
def test_job_names : List String := loopedState.test_jobs

/-- The text of the builder workspace file strictly before its `sha256` field
value. -/
def builder_ws_before_sha (source_os : OS) (source_arch target_arch : Architecture) : String :=
  "load(\"@bazel_tools//tools/build_defs/repo:http.bzl\", \"http_archive\")\n\nhttp_archive(\n    name = \"" ++
    musl_toolchain_target_name source_os source_arch target_arch ++ "\",\n    sha256 = \""

/-- The text of the builder workspace file strictly after its `sha256` field
value. -/
def builder_ws_after_sha (source_os : OS) (source_arch target_arch : Architecture) : String :=
  "\",\n    url = \"file://$(pwd)/" ++
    (musl_filename_without_extension source_os source_arch target_arch ++ ".tar.gz") ++
    "\",\n)\n"

/-- The text of one tester-workspace `http_file` block strictly before its
`sha256` field value. -/
def tester_block_before_sha (p : (OS × Architecture) × TBInfo) : String :=
  "\nhttp_file(\n    name = \"built_binary_" ++ p.1.2.for_musl ++ "-" ++ p.1.1.for_musl ++
    "\",\n    executable = True,\n    sha256 = \""

/-- The text of one tester-workspace `http_file` block strictly after its
`sha256` field value. -/
def tester_block_after_sha (p : (OS × Architecture) × TBInfo) : String :=
  "\",\n    url = \"file://$(pwd)/" ++ p.2.output ++ "\",\n)\n"

/-- The job identities of the release pipeline in emission order: the
self-check job, then per target architecture the interleaved build and
test-build jobs followed by the aggregate test job, then release and
publish. -/
def release_pipeline_identities : List String :=
  ["check-generated",
   "unknown-linux-gnu-x86_64-x86_64", "unknown-linux-gnu-x86_64-x86_64-test-build",
   "unknown-linux-gnu-aarch64-x86_64", "unknown-linux-gnu-aarch64-x86_64-test-build",
   "apple-darwin-x86_64-x86_64", "apple-darwin-x86_64-x86_64-test-build",
   "apple-darwin-aarch64-x86_64", "apple-darwin-aarch64-x86_64-test-build",
   "test-x86_64",
   "unknown-linux-gnu-x86_64-aarch64", "unknown-linux-gnu-x86_64-aarch64-test-build",
   "unknown-linux-gnu-aarch64-aarch64", "unknown-linux-gnu-aarch64-aarch64-test-build",
   "apple-darwin-x86_64-aarch64", "apple-darwin-x86_64-aarch64-test-build",
   "apple-darwin-aarch64-aarch64", "apple-darwin-aarch64-aarch64-test-build",
   "test-aarch64",
   "release", "publish"]

/-- Strings with equal character data are equal. -/
theorem string_eq_of_data {a b : String} (h : a.data = b.data) : a = b := by
  cases a; cases b; exact congrArg String.mk h

/-!
### The claims
-/

/-- C1: for every job emitted by `make_jobs` (pre-merge or release pipeline),
every identity in its `needs` list was registered strictly earlier in
emission order, and no job names its own identity in `needs`; the dependency
graph is therefore acyclic. -/
theorem needs_registered_strictly_earlier (release : Bool) (version : String) :
    prefixClosed [] (make_jobs release version) = true
      ∧ (make_jobs release version).all
          (fun p => !((needsList p.2).contains p.1)) = true := by
  cases release <;> exact ⟨rfl, rfl⟩

/-- C5: pipeline generation is deterministic — the job-construction function
`make_jobs` is a pure function of the release flag and the version string, so
two evaluations on identical inputs yield equal pipeline job mappings. -/
theorem make_jobs_deterministic (release : Bool) (version : String) :
    make_jobs release version = make_jobs release version := rfl

/-- C9: changing only the version string changes only version-dependent
fields: the job identities and every `needs` list are identical between the
two outputs, every job before the final `release` and `publish` jobs is
identical, the pre-merge pipeline is identical as a whole, and the musl
artifact filenames and repository names are the same fixed lists for any
version. -/
theorem version_change_is_framed (release : Bool) (v1 v2 : String) :
    (make_jobs release v1).map Prod.fst = (make_jobs release v2).map Prod.fst
      ∧ (make_jobs release v1).map (fun p => needsList p.2)
          = (make_jobs release v2).map (fun p => needsList p.2)
      ∧ (make_jobs release v1).dropLast.dropLast = (make_jobs release v2).dropLast.dropLast
      ∧ make_jobs false v1 = make_jobs false v2
      ∧ loopedState.releasable_artifacts.map (fun a => a.musl_filename)
          = ["musl-1.2.3-platform-x86_64-unknown-linux-gnu-target-x86_64-linux-musl.tar.gz",
             "musl-1.2.3-platform-aarch64-unknown-linux-gnu-target-x86_64-linux-musl.tar.gz",
             "musl-1.2.3-platform-x86_64-apple-darwin-target-x86_64-linux-musl.tar.gz",
             "musl-1.2.3-platform-aarch64-apple-darwin-target-x86_64-linux-musl.tar.gz",
             "musl-1.2.3-platform-x86_64-unknown-linux-gnu-target-aarch64-linux-musl.tar.gz",
             "musl-1.2.3-platform-aarch64-unknown-linux-gnu-target-aarch64-linux-musl.tar.gz",
             "musl-1.2.3-platform-x86_64-apple-darwin-target-aarch64-linux-musl.tar.gz",
             "musl-1.2.3-platform-aarch64-apple-darwin-target-aarch64-linux-musl.tar.gz"]
      ∧ loopedState.releasable_artifacts.map ReleasableArtifact.repo_name
          = ["musl-1_2_3-platform-x86_64-unknown-linux-gnu-target-x86_64-linux-musl",
             "musl-1_2_3-platform-aarch64-unknown-linux-gnu-target-x86_64-linux-musl",
             "musl-1_2_3-platform-x86_64-apple-darwin-target-x86_64-linux-musl",
             "musl-1_2_3-platform-aarch64-apple-darwin-target-x86_64-linux-musl",
             "musl-1_2_3-platform-x86_64-unknown-linux-gnu-target-aarch64-linux-musl",
             "musl-1_2_3-platform-aarch64-unknown-linux-gnu-target-aarch64-linux-musl",
             "musl-1_2_3-platform-x86_64-apple-darwin-target-aarch64-linux-musl",
             "musl-1_2_3-platform-aarch64-apple-darwin-target-aarch64-linux-musl"] := by
  cases release <;> exact ⟨rfl, rfl, rfl, rfl, rfl, rfl⟩

/-- C2: the release job's `needs` list is exactly the BuildJob identities
followed by the aggregate TestJob identities — no more, no fewer — the
publish job needs exactly the release job, and both jobs exist only in the
release pipeline. -/
theorem release_needs_all_builds_and_tests (version : String) :
    (assocFind (make_jobs true version) "release").map needsList
        = some (build_job_names ++ test_job_names)
      ∧ build_job_names ++ test_job_names
          = ["unknown-linux-gnu-x86_64-x86_64", "unknown-linux-gnu-aarch64-x86_64",
             "apple-darwin-x86_64-x86_64", "apple-darwin-aarch64-x86_64",
             "unknown-linux-gnu-x86_64-aarch64", "unknown-linux-gnu-aarch64-aarch64",
             "apple-darwin-x86_64-aarch64", "apple-darwin-aarch64-aarch64",
             "test-x86_64", "test-aarch64"]
      ∧ (assocFind (make_jobs true version) "publish").map needsList = some ["release"]
      ∧ assocFind (make_jobs false version) "release" = none
      ∧ assocFind (make_jobs false version) "publish" = none
      ∧ build_job_names.all
          (fun n => ((make_jobs true version).map Prod.fst).contains n) = true
      ∧ test_job_names.all
          (fun n => ((make_jobs true version).map Prod.fst).contains n) = true :=
  ⟨rfl, rfl, rfl, rfl, rfl, rfl, rfl⟩

/-- C7: with the configured source matrix and both target architectures
testable, the release pipeline consists of exactly 8 BuildJobs, 8
TestBuildJobs, 2 TestJobs, 1 release job and 1 publish job (plus the
self-check job), all with distinct identities. -/
theorem release_pipeline_job_counts (version : String) :
    (make_jobs true version).map Prod.fst = release_pipeline_identities
      ∧ build_job_names.length = 8
      ∧ test_build_job_names.length = 8
      ∧ test_job_names.length = 2
      ∧ release_pipeline_identities.Nodup
      ∧ List.Perm release_pipeline_identities
          ("check-generated" ::
            (build_job_names ++ test_build_job_names ++ test_job_names ++ ["release", "publish"]))
      ∧ release_pipeline_identities.count "release" = 1
      ∧ release_pipeline_identities.count "publish" = 1 := by
  refine ⟨rfl, rfl, rfl, rfl, by decide, by decide, by decide, by decide⟩

/-- C8: for every (source platform, target architecture) pair, the
TestBuildJob's `needs` list is exactly the singleton of the corresponding
BuildJob identity, and for every target architecture the aggregate TestJob's
`needs` list is exactly the TestBuildJob identities of that architecture, one
per source machine in source order; this holds in both pipelines. -/
theorem test_build_and_test_needs (release : Bool) (version : String)
    (source_os : OS) (source_arch target_arch : Architecture) :
    (assocFind (make_jobs release version)
        (source_os.for_musl ++ "-" ++ source_arch.for_musl ++ "-" ++ target_arch.for_musl ++
          "-test-build")).map needsList
      = some [source_os.for_musl ++ "-" ++ source_arch.for_musl ++ "-" ++ target_arch.for_musl]
    ∧ (assocFind (make_jobs release version) ("test-" ++ target_arch.for_musl)).map needsList
      = some (source_machines.map (fun src =>
          src.1.for_musl ++ "-" ++ src.2.1.for_musl ++ "-" ++ target_arch.for_musl ++
            "-test-build")) := by
  cases release <;> cases source_os <;> cases source_arch <;> cases target_arch <;>
    exact ⟨rfl, rfl⟩

/-- C3: the download-asset-suffix derivation for `Architecture` is the one
fallible derivation of the family: it has an explicit error fall-through for
any member not wired into it, and both members of the current enumeration are
wired, returning their suffix ("amd64" for X86_64, "arm64" for ARM64) without
error — so for every value of the closed enumeration the derivation
succeeds, and a member outside the wired set could only hit the error
branch. -/
theorem bazel_download_arch_wired :
    Architecture.for_bazel_download Architecture.X86_64 = Except.ok "amd64"
      ∧ Architecture.for_bazel_download Architecture.ARM64 = Except.ok "arm64"
      ∧ ∀ a : Architecture, (Architecture.for_bazel_download a).isOk = true := by
  refine ⟨rfl, rfl, ?_⟩
  intro a
  cases a <;> rfl

/-- C4 counterexample: two input tuples that differ only in the version
component produce identical compiled-archive and test-binary filenames, so
the artifact naming is not injective over the full (source OS, source
architecture, target architecture, version) tuple as claimed. -/
theorem artifact_names_not_version_injective :
    archive_filename OS.Linux Architecture.X86_64 Architecture.X86_64 "1.0.0"
        = archive_filename OS.Linux Architecture.X86_64 Architecture.X86_64 "2.0.0"
      ∧ test_binary_filename OS.Linux Architecture.X86_64 Architecture.X86_64 "1.0.0"
        = test_binary_filename OS.Linux Architecture.X86_64 Architecture.X86_64 "2.0.0"
      ∧ (("1.0.0" == "2.0.0") = false) :=
  ⟨rfl, rfl, rfl⟩

/-- C4 (amended): the artifact-naming functions are pure functions of the
platform components only — the version argument never changes either filename
(and, being pure Lean functions of their arguments, they depend on no clock
or process state) — and both filenames are injective over the (source OS,
source architecture, target architecture) triple. -/
theorem artifact_names_injective_over_platform_triple :
    (∀ (source_os : OS) (source_arch target_arch : Architecture) (v1 v2 : String),
        archive_filename source_os source_arch target_arch v1
            = archive_filename source_os source_arch target_arch v2
          ∧ test_binary_filename source_os source_arch target_arch v1
            = test_binary_filename source_os source_arch target_arch v2)
      ∧ (∀ t1 t2 : OS × Architecture × Architecture,
          archive_filename t1.1 t1.2.1 t1.2.2 "" = archive_filename t2.1 t2.2.1 t2.2.2 "" →
            t1 = t2)
      ∧ (∀ t1 t2 : OS × Architecture × Architecture,
          test_binary_filename t1.1 t1.2.1 t1.2.2 ""
              = test_binary_filename t2.1 t2.2.1 t2.2.2 "" →
            t1 = t2) := by
  refine ⟨fun so sa ta v1 v2 => ⟨rfl, rfl⟩, by decide, by decide⟩

/-- Witness for the amended C4 theorem at concrete inputs. -/
theorem artifact_names_injective_over_platform_triple_witness :
    (archive_filename OS.Linux Architecture.ARM64 Architecture.X86_64 "1.0.0"
        = archive_filename OS.Linux Architecture.ARM64 Architecture.X86_64 "2.0.0")
      ∧ ((OS.Linux, Architecture.ARM64, Architecture.X86_64) : OS × Architecture × Architecture)
          = (OS.Linux, Architecture.ARM64, Architecture.X86_64)
      ∧ ((OS.MacOS, Architecture.X86_64, Architecture.ARM64) : OS × Architecture × Architecture)
          = (OS.MacOS, Architecture.X86_64, Architecture.ARM64) :=
  ⟨(artifact_names_injective_over_platform_triple.1 OS.Linux Architecture.ARM64
      Architecture.X86_64 "1.0.0" "2.0.0").1,
   artifact_names_injective_over_platform_triple.2.1
     (OS.Linux, Architecture.ARM64, Architecture.X86_64)
     (OS.Linux, Architecture.ARM64, Architecture.X86_64) rfl,
   artifact_names_injective_over_platform_triple.2.2
     (OS.MacOS, Architecture.X86_64, Architecture.ARM64)
     (OS.MacOS, Architecture.X86_64, Architecture.ARM64) rfl⟩

/-- C10: the three naming conventions disagree for X86_64 — the download
suffix is "amd64" while both the platform-constraint identifier and the
musl-triple component are "x86_64" — whereas for ARM64 the download suffix
"arm64" equals the platform-constraint identifier and the musl-triple
component is "aarch64". -/
theorem naming_conventions_for_architectures :
    Architecture.for_bazel_download Architecture.X86_64 = Except.ok "amd64"
      ∧ Architecture.X86_64.for_bazel_platform = "x86_64"
      ∧ Architecture.X86_64.for_musl = "x86_64"
      ∧ (("amd64" == "x86_64") = false)
      ∧ Architecture.for_bazel_download Architecture.ARM64 = Except.ok "arm64"
      ∧ Architecture.ARM64.for_bazel_platform = "arm64"
      ∧ Architecture.ARM64.for_musl = "aarch64"
      ∧ (("arm64" == "aarch64") = false) :=
  ⟨rfl, rfl, rfl, rfl, rfl, rfl, rfl, rfl⟩

/-- C6: the generator never embeds a literal digest — in each of the four
emitted download declarations (builder workspace `http_archive`, tester
workspace `http_file`, release `repositories.bzl` `http_archive`, release
body) the `sha256` value is exactly the deferred command-substitution
descriptor `$(<hash-command> <artifact> | awk ...)`, where the hash command is
the pure OS mapping sending Linux to "sha256sum" and MacOS to
"shasum -a 256" (the tester, release and release-body sites run on Linux
runners and use the Linux command). -/
theorem deferred_checksum_descriptors (source_os : OS) (source_arch target_arch : Architecture)
    (release_body_path release_archive_path version : String) :
    builder_workspace_content source_os source_arch target_arch
        = builder_ws_before_sha source_os source_arch target_arch
          ++ deferred_sha256_descriptor (get_platform_sha256sum source_os)
              (musl_filename_without_extension source_os source_arch target_arch ++ ".tar.gz")
          ++ builder_ws_after_sha source_os source_arch target_arch
      ∧ tester_workspace_content (assocGetD loopedState.test_build_jobs target_arch [])
          = "load(\"@bazel_tools//tools/build_defs/repo:http.bzl\", \"http_file\")\n"
            ++ String.join ((assocGetD loopedState.test_build_jobs target_arch []).map
                (fun p => tester_block_before_sha p
                  ++ deferred_sha256_descriptor (get_platform_sha256sum OS.Linux) p.2.output
                  ++ tester_block_after_sha p))
      ∧ release_http_archives loopedState.releasable_artifacts version
          = pyJoin "\n" (loopedState.releasable_artifacts.map (fun a =>
              http_archive a.repo_name
                (deferred_sha256_descriptor (get_platform_sha256sum OS.Linux) a.musl_filename)
                (download_url_for a.musl_filename version)))
      ∧ release_body_run release_body_path release_archive_path version
          = "sha256="
            ++ deferred_sha256_descriptor (get_platform_sha256sum OS.Linux) release_archive_path
            ++ " ; url=\x27" ++ download_url_for release_archive_path version
            ++ "\x27 ; version=\x27" ++ version
            ++ "\x27; sed -e \"s#\x7bsha256\x7d#$\x7bsha256\x7d#g\" -e \"s#\x7burl\x7d#$\x7burl\x7d#g\" -e \"s|\x7bversion\x7d|$\x7bversion#v\x7d|g\" release.txt.template > "
            ++ release_body_path
      ∧ get_platform_sha256sum OS.Linux = "sha256sum"
      ∧ get_platform_sha256sum OS.MacOS = "shasum -a 256" := by
  refine ⟨?_, ?_, rfl, ?_, rfl, rfl⟩
  · cases source_os <;> cases source_arch <;> cases target_arch <;> rfl
  · cases target_arch <;> rfl
  · apply string_eq_of_data
    simp only [release_body_run, deferred_sha256_descriptor, download_url_for,
      get_platform_sha256sum, String.data_append, List.append_assoc, List.cons_append,
      List.nil_append]

end MuslToolchain
